import Mathlib

/-!
# Platform style: trait table, style construction and single-colour icons

A shallow embedding of `src/qt/platformstyle.cpp`.

The file uses a handful of Qt value types.  They are modelled here by what the
code observes of them:

* `QRgb` is a natural number read as `0xAARRGGBB`; `qRgba`, `qAlpha`, `qRed`,
  `qGreen`, `qBlue` follow `qrgb.h`, with `& 0xff` written `% 256`, shifts
  written as multiplication or division by a power of two, and the `|` of
  disjoint bit fields written as a sum.
* `QColor` is the RGB view of a colour: the four channels returned by `red()`,
  `green()`, `blue()`, `alpha()` and the validity bit.
* `QImage` is a width, a height and the pixel values as `pixel(x, y)` returns
  them.
* `QIcon` is the list of its pixmaps, one for each available size.
* The process-wide state the file reads (`GUIUtil::customThemeIsSet()`,
  `QApplication::palette()`) and the library function `QColor::lightness()`
  are gathered in `GuiEnv` and passed explicitly.
* `float` and `double` arithmetic is IEEE-754 round-to-nearest-even on binary32
  and binary64, modelled on rationals by `roundNearestEven` with 24 and 53
  significant bits, each operation rounded on its own (no fused multiply-add,
  no extended precision).  The exponent range is not modelled: every value the
  gradient computes is far from overflow and from the subnormal range.
-/

/-! ## Qt colour values -/

/-- The alpha channel of a `QRgb`: `rgb >> 24` on a 32-bit unsigned value. -/
def qAlpha (rgb : ℕ) : ℕ := (rgb % 2 ^ 32) / 2 ^ 24

/-- The red channel of a `QRgb`: `(rgb >> 16) & 0xff`. -/
def qRed (rgb : ℕ) : ℕ := (rgb / 2 ^ 16) % 256

/-- The green channel of a `QRgb`: `(rgb >> 8) & 0xff`. -/
def qGreen (rgb : ℕ) : ℕ := (rgb / 2 ^ 8) % 256

/-- The blue channel of a `QRgb`: `rgb & 0xff`. -/
def qBlue (rgb : ℕ) : ℕ := rgb % 256

/-- Qt `qRgba(r, g, b, a)`:
`((a & 0xff) << 24) | ((r & 0xff) << 16) | ((g & 0xff) << 8) | (b & 0xff)`. -/
def qRgba (r g b a : ℕ) : ℕ :=
  (a % 256) * 2 ^ 24 + (r % 256) * 2 ^ 16 + (g % 256) * 2 ^ 8 + b % 256

/-- The RGB view of a `QColor`.  An invalid colour reads as `red() = green() =
blue() = 0` and `alpha() = 255`. -/
structure QColor where
  valid : Bool
  red : ℕ
  green : ℕ
  blue : ℕ
  alpha : ℕ
deriving DecidableEq, Repr

namespace QColor

/-- The default-constructed, invalid colour (`QColor col;`).  The file never
reads the alpha of an invalid colour. -/
def invalid : QColor := ⟨false, 0, 0, 0, 255⟩

/-- The constructor `QColor(int r, int g, int b, int a)`: the colour is left
invalid when a component is outside `0..255`. -/
def rgba (r g b a : ℤ) : QColor :=
  if 0 ≤ r ∧ r ≤ 255 ∧ 0 ≤ g ∧ g ≤ 255 ∧ 0 ≤ b ∧ b ≤ 255 ∧ 0 ≤ a ∧ a ≤ 255 then
    ⟨true, r.toNat, g.toNat, b.toNat, a.toNat⟩
  else invalid

/-- The constructor `QColor(int r, int g, int b)`, whose alpha defaults to 255. -/
def rgb (r g b : ℤ) : QColor := rgba r g b 255

end QColor

/-! ## Images and icons -/

/-- An image: its size and the `QRgb` value of each pixel. -/
structure QImage where
  width : ℕ
  height : ℕ
  data : ℕ → ℕ → ℕ

namespace QImage

/-- Qt `QImage::pixel(x, y)`; an invalid coordinate yields 12345. -/
def pixel (img : QImage) (x y : ℕ) : ℕ :=
  if x < img.width ∧ y < img.height then img.data x y else 12345

/-- Qt `QImage::setPixel(x, y, v)`; an invalid coordinate leaves the image as it is. -/
def setPixel (img : QImage) (x y v : ℕ) : QImage :=
  if x < img.width ∧ y < img.height then
    { img with data := fun i j => if i = x ∧ j = y then v else img.data i j }
  else img

/-- The call `img.convertToFormat(QImage::Format_ARGB32)`: the storage format
changes, the size and the values `pixel` returns do not. -/
def convertToFormat (img : QImage) : QImage := img

end QImage

/-- An icon: the pixmaps of its available sizes, in the order of `availableSizes()`. -/
structure QIcon where
  pixmaps : List QImage

namespace QIcon

/-- The empty icon (`QIcon new_ico;`). -/
def empty : QIcon := ⟨[]⟩

/-- Qt `QIcon::addPixmap`. -/
def addPixmap (ico : QIcon) (img : QImage) : QIcon := ⟨ico.pixmaps ++ [img]⟩

/-- The icon built from one pixmap (`QIcon(QPixmap::fromImage(img))`). -/
def ofImage (img : QImage) : QIcon := ⟨[img]⟩

end QIcon

/-! ## The environment read by the file -/

/-- The three palette colours the constructor reads. -/
structure QPalette where
  Highlight : QColor
  HighlightedText : QColor
  WindowText : QColor

/-- Process-wide state and library functions the file calls. -/
structure GuiEnv where
  /-- Result of `GUIUtil::customThemeIsSet()`. -/
  customThemeIsSet : Bool
  /-- Result of `QApplication::palette()`. -/
  palette : QPalette
  /-- The method `QColor::lightness()`. -/
  lightness : QColor → ℤ
  /-- The constructor `QImage(filename)`. -/
  loadImage : String → QImage
  /-- The constructor `QIcon(filename)`. -/
  loadIcon : String → QIcon

/-! ## Floating point -/

/-- Round a rational to the nearest integer, ties to the even one. -/
def roundHalfEven (q : ℚ) : ℤ :=
  let f := q.floor
  let d := q - f
  if d < 1 / 2 then f
  else if 1 / 2 < d then f + 1
  else if f % 2 = 0 then f else f + 1

/-- Halve `n` until it is below 2, at most `fuel` times, counting the steps. -/
def log2Fuel : ℕ → ℕ → ℕ
  | 0, _ => 0
  | fuel + 1, n => if n < 2 then 0 else log2Fuel fuel (n / 2) + 1

/-- The floor of the base-2 logarithm of a positive natural number. -/
def floorLog2 (n : ℕ) : ℕ := log2Fuel n n

/-- The binary exponent of a nonzero rational: the `e` with `2 ^ e ≤ |q| < 2 ^ (e + 1)`. -/
def binExp (q : ℚ) : ℤ :=
  let k : ℤ := (floorLog2 q.num.natAbs : ℤ) - (floorLog2 q.den : ℤ)
  if (2 : ℚ) ^ k ≤ |q| then k else k - 1

/-- Round to the nearest binary floating-point number with `p` significant
bits, ties to even (unbounded exponent). -/
def roundNearestEven (p : ℕ) (q : ℚ) : ℚ :=
  if q = 0 then 0
  else
    let s : ℤ := binExp q - ((p : ℤ) - 1)
    (roundHalfEven (q / (2 : ℚ) ^ s) : ℚ) * (2 : ℚ) ^ s

/-- The result of an operation carried out in `double`. -/
def toDouble (q : ℚ) : ℚ := roundNearestEven 53 q

/-- The result of an operation carried out in `float`, or of a conversion to `float`. -/
def toFloat (q : ℚ) : ℚ := roundNearestEven 24 q

/-- Conversion of a floating-point value to `int`: truncation towards zero. -/
def truncToInt (q : ℚ) : ℤ := Int.tdiv q.num q.den

/-! ## `MakeSingleColorImage` -/

/-- The colour `colorLeft` of the gradient. -/
def colorLeft : QColor := QColor.rgb 108 200 239

/-- The colour `colorMid` of the gradient. -/
def colorMid : QColor := QColor.rgb 102 204 204

/-- The colour `colorRight` of the gradient. -/
def colorRight : QColor := QColor.rgb 12 175 165

/-- The blend factor of the branch `y < x`:
`r = (x*1.0/img.width() - y*1.0/img.height())*1.25`, computed in `double` and
stored in a `float`. -/
def blendRight (w h x y : ℕ) : ℚ :=
  toFloat (toDouble (toDouble (toDouble ((x : ℚ) / w) - toDouble ((y : ℚ) / h)) * (5 / 4)))

/-- The blend factor of the branch `y ≥ x`:
`r = (y*1.0/img.height() - x*1.0/img.width())*1.25`. -/
def blendLeft (w h x y : ℕ) : ℚ :=
  toFloat (toDouble (toDouble (toDouble ((y : ℚ) / h) - toDouble ((x : ℚ) / w)) * (5 / 4)))

/-- One argument of the colour constructor: `mid * (1-r) + other * r` in
`float`, converted to `int`. -/
def blendChannel (mid other : ℕ) (r : ℚ) : ℤ :=
  truncToInt (toFloat (toFloat ((mid : ℚ) * toFloat (1 - r)) + toFloat ((other : ℚ) * r)))

/-- The red, green and blue arguments passed to the colour constructor for
the pixel `(x, y)` of an image of size `w × h`. -/
def gradientArgs (w h x y : ℕ) : ℤ × ℤ × ℤ :=
  if y < x then
    let r := blendRight w h x y
    (blendChannel colorMid.red colorRight.red r,
     blendChannel colorMid.green colorRight.green r,
     blendChannel colorMid.blue colorRight.blue r)
  else
    let r := blendLeft w h x y
    (blendChannel colorMid.red colorLeft.red r,
     blendChannel colorMid.green colorLeft.green r,
     blendChannel colorMid.blue colorLeft.blue r)

/-- The colour `col` of the gradient branch for the pixel `(x, y)`. -/
def gradientColor (w h x y : ℕ) : QColor :=
  let c := gradientArgs w h x y
  QColor.rgba c.1 c.2.1 c.2.2 255

/-- Body of the inner loop in custom-theme mode. -/
def gradientBody (img : QImage) (x y : ℕ) : QImage :=
  let rgb := img.pixel x y
  let col := gradientColor img.width img.height x y
  img.setPixel x y (qRgba col.red col.green col.blue (qAlpha rgb))

/-- Body of the inner loop in flat mode. -/
def flatBody (colorbase : QColor) (img : QImage) (x y : ℕ) : QImage :=
  let rgb := img.pixel x y
  img.setPixel x y (qRgba colorbase.red colorbase.green colorbase.blue (qAlpha rgb))

/-- The inner loop `for (int y = img.height(); y--; )`, with `n` the value of
`y` before the test. -/
def loopY (body : QImage → ℕ → ℕ → QImage) (x : ℕ) : ℕ → QImage → QImage
  | 0, img => img
  | y + 1, img => loopY body x y (body img x y)

/-- The outer loop `for (int x = img.width(); x--; )`, with `n` the value of
`x` before the test. -/
def loopX (body : QImage → ℕ → ℕ → QImage) : ℕ → QImage → QImage
  | 0, img => img
  | x + 1, img => loopX body x (loopY body x img.height img)

/-- The function `MakeSingleColorImage(img, colorbase)`; the result is the
value of `img` on return. -/
def MakeSingleColorImage (env : GuiEnv) (img : QImage) (colorbase : QColor) : QImage :=
  if env.customThemeIsSet then
    let img := img.convertToFormat
    loopX gradientBody img.width img
  else
    let img := img.convertToFormat
    loopX (flatBody colorbase) img.width img

/-- The overload `ColorizeIcon(const QIcon&, const QColor&)`. -/
def ColorizeIcon (env : GuiEnv) (ico : QIcon) (colorbase : QColor) : QIcon :=
  ico.pixmaps.foldl
    (fun new_ico img => new_ico.addPixmap (MakeSingleColorImage env img colorbase))
    QIcon.empty

/-- The function `ColorizeImage(const QString&, const QColor&)`. -/
def ColorizeImage (env : GuiEnv) (filename : String) (colorbase : QColor) : QImage :=
  MakeSingleColorImage env (env.loadImage filename) colorbase

/-- The overload `ColorizeIcon(const QString&, const QColor&)`. -/
def ColorizeIconFile (env : GuiEnv) (filename : String) (colorbase : QColor) : QIcon :=
  QIcon.ofImage (ColorizeImage env filename colorbase)

/-! ## `PlatformStyle` -/

/-- One row of `platform_styles`. -/
structure PlatformTraits where
  platformId : String
  imagesOnButtons : Bool
  colorizeIcons : Bool
  useExtraSpacing : Bool
deriving DecidableEq, Repr

/-- The table `platform_styles`. -/
def platform_styles : List PlatformTraits :=
  [⟨"macosx", false, true, true⟩,
   ⟨"windows", true, false, false⟩,
   ⟨"other", true, true, false⟩]

/-- The constant `platform_styles_count`. -/
def platform_styles_count : ℕ := platform_styles.length

/-- The members of a `PlatformStyle`. -/
structure PlatformStyle where
  name : String
  imagesOnButtons : Bool
  colorizeIcons : Bool
  useExtraSpacing : Bool
  singleColor : QColor
  textColor : QColor

namespace PlatformStyle

/-- The constructor `PlatformStyle::PlatformStyle`. -/
def new (env : GuiEnv) (_name : String)
    (_imagesOnButtons _colorizeIcons _useExtraSpacing : Bool) : PlatformStyle :=
  let self : PlatformStyle :=
    { name := _name
      imagesOnButtons := _imagesOnButtons
      colorizeIcons := _colorizeIcons
      useExtraSpacing := _useExtraSpacing
      singleColor := QColor.rgb 0 0 0
      textColor := QColor.rgb 0 0 0 }
  if env.customThemeIsSet then
    { self with
      imagesOnButtons := true
      colorizeIcons := true
      singleColor := QColor.rgb 12 175 165
      textColor := QColor.rgb 12 175 165 }
  else
    let self : PlatformStyle :=
      if self.colorizeIcons then
        let colorHighlightBg := env.palette.Highlight
        let colorHighlightFg := env.palette.HighlightedText
        let colorText := env.palette.WindowText
        let colorTextLightness := env.lightness colorText
        let colorbase :=
          if |env.lightness colorHighlightBg - colorTextLightness|
              < |env.lightness colorHighlightFg - colorTextLightness| then
            colorHighlightBg
          else colorHighlightFg
        { self with singleColor := colorbase }
      else self
    { self with textColor := env.palette.WindowText }

/-- The accessor `SingleColor()`. -/
def SingleColor (s : PlatformStyle) : QColor := s.singleColor

/-- The accessor `TextColor()`. -/
def TextColor (s : PlatformStyle) : QColor := s.textColor

/-- The method `SingleColorImage(const QString&)`. -/
def SingleColorImage (env : GuiEnv) (s : PlatformStyle) (filename : String) : QImage :=
  if !s.colorizeIcons then env.loadImage filename
  else ColorizeImage env filename s.SingleColor

/-- The method `SingleColorIcon(const QString&)`. -/
def SingleColorIconFile (env : GuiEnv) (s : PlatformStyle) (filename : String) : QIcon :=
  if !s.colorizeIcons then env.loadIcon filename
  else ColorizeIconFile env filename s.SingleColor

/-- The method `SingleColorIcon(const QIcon&)`. -/
def SingleColorIcon (env : GuiEnv) (s : PlatformStyle) (icon : QIcon) : QIcon :=
  if !s.colorizeIcons then icon
  else ColorizeIcon env icon s.SingleColor

/-- The method `TextColorIcon(const QString&)`. -/
def TextColorIconFile (env : GuiEnv) (s : PlatformStyle) (filename : String) : QIcon :=
  ColorizeIconFile env filename s.TextColor

/-- The method `TextColorIcon(const QIcon&)`. -/
def TextColorIcon (env : GuiEnv) (s : PlatformStyle) (icon : QIcon) : QIcon :=
  ColorizeIcon env icon s.TextColor

/-- The loop of `instantiate` over the rows not yet visited. -/
def instantiateFrom (env : GuiEnv) (platformId : String) :
    List PlatformTraits → Option PlatformStyle
  | [] => none
  | row :: rest =>
    if platformId = row.platformId then
      some (new env row.platformId row.imagesOnButtons row.colorizeIcons row.useExtraSpacing)
    else instantiateFrom env platformId rest

/-- The factory `PlatformStyle::instantiate`; `none` is the null pointer. -/
def instantiate (env : GuiEnv) (platformId : String) : Option PlatformStyle :=
  instantiateFrom env platformId platform_styles

end PlatformStyle

/-! ## Concrete inputs used by the examples -/

/-- A palette with a dark window text, a mid-tone highlight and a white highlighted text. -/
def samplePalette : QPalette :=
  ⟨QColor.rgb 48 140 198, QColor.rgb 255 255 255, QColor.rgb 0 0 0⟩

/-- A stand-in for `QColor::lightness()`: the mean of the largest and the smallest channel. -/
def sampleLightness (c : QColor) : ℤ :=
  ((max c.red (max c.green c.blue) + min c.red (min c.green c.blue)) / 2 : ℕ)

/-- A half-transparent image of the given size whose colour varies with the coordinates. -/
def sampleImage (w h : ℕ) : QImage :=
  ⟨w, h, fun x y => qRgba (10 * x) (20 * y) 30 128⟩

/-- An environment with the given custom-theme flag; every file holds a 2 × 2 image. -/
def sampleEnv (customTheme : Bool) : GuiEnv :=
  { customThemeIsSet := customTheme
    palette := samplePalette
    lightness := sampleLightness
    loadImage := fun _ => sampleImage 2 2
    loadIcon := fun _ => ⟨[sampleImage 2 2, sampleImage 4 4]⟩ }

/-- A style whose `colorizeIcons` flag is the given one. -/
def sampleStyle (colorize : Bool) : PlatformStyle :=
  ⟨"sample", true, colorize, false, QColor.rgb 48 140 198, QColor.rgb 0 0 0⟩

/-! ## The pixel loops -/

theorem QImage.setPixel_of_lt (img : QImage) (x y v : ℕ) (hx : x < img.width)
    (hy : y < img.height) :
    img.setPixel x y v =
      ⟨img.width, img.height, fun i j => if i = x ∧ j = y then v else img.data i j⟩ := by
  simp [QImage.setPixel, hx, hy]

theorem QImage.pixel_of_lt (img : QImage) (x y : ℕ) (hx : x < img.width)
    (hy : y < img.height) : img.pixel x y = img.data x y := by
  simp [QImage.pixel, hx, hy]

theorem loopY_eq (body : QImage → ℕ → ℕ → QImage) (op : ℕ → ℕ → ℕ → ℕ → ℕ → ℕ)
    (hbody : ∀ img x y, body img x y
      = img.setPixel x y (op img.width img.height x y (img.pixel x y)))
    (x : ℕ) : ∀ (n : ℕ) (img : QImage), x < img.width → n ≤ img.height →
      loopY body x n img =
        ⟨img.width, img.height, fun i j =>
          if i = x ∧ j < n then op img.width img.height x j (img.data i j)
          else img.data i j⟩ := by
  intro n
  induction n with
  | zero =>
    intro img _ _
    cases img
    simp [loopY]
  | succ n ih =>
    intro img hx hn
    have hn1 : n < img.height := hn
    rw [loopY, hbody, QImage.setPixel_of_lt img x n _ hx hn1, QImage.pixel_of_lt img x n hx hn1]
    refine (ih _ ?_ ?_).trans ?_
    · exact hx
    · exact Nat.le_of_lt hn1
    congr 1
    funext i j
    by_cases hi : i = x
    · subst hi
      rcases Nat.lt_trichotomy j n with h | h | h
      · have h1 : j ≠ n := Nat.ne_of_lt h
        have h2 : j < n + 1 := Nat.lt_succ_of_lt h
        simp [h, h1, h2]
      · subst h
        simp
      · have h1 : ¬ j < n := Nat.not_lt.mpr (Nat.le_of_lt h)
        have h2 : j ≠ n := Nat.ne_of_gt h
        have h3 : ¬ j < n + 1 := by omega
        simp [h1, h2, h3]
    · simp [hi]

theorem loopX_eq (body : QImage → ℕ → ℕ → QImage) (op : ℕ → ℕ → ℕ → ℕ → ℕ → ℕ)
    (hbody : ∀ img x y, body img x y
      = img.setPixel x y (op img.width img.height x y (img.pixel x y))) :
    ∀ (n : ℕ) (img : QImage), n ≤ img.width →
      loopX body n img =
        ⟨img.width, img.height, fun i j =>
          if i < n ∧ j < img.height then op img.width img.height i j (img.data i j)
          else img.data i j⟩ := by
  intro n
  induction n with
  | zero =>
    intro img _
    cases img
    simp [loopX]
  | succ n ih =>
    intro img hn
    have hn1 : n < img.width := hn
    rw [loopX, loopY_eq body op hbody n img.height img hn1 (Nat.le_refl _)]
    refine (ih _ ?_).trans ?_
    · exact Nat.le_of_lt hn1
    congr 1
    funext i j
    by_cases hj : j < img.height
    · rcases Nat.lt_trichotomy i n with h | h | h
      · have h1 : i ≠ n := Nat.ne_of_lt h
        have h2 : i < n + 1 := Nat.lt_succ_of_lt h
        simp [h, h1, h2, hj]
      · subst h
        simp [hj]
      · have h1 : ¬ i < n := Nat.not_lt.mpr (Nat.le_of_lt h)
        have h2 : i ≠ n := Nat.ne_of_gt h
        have h3 : ¬ i < n + 1 := by omega
        simp [h1, h2, h3]
    · simp [hj]

theorem flatBody_eq (colorbase : QColor) (img : QImage) (x y : ℕ) :
    flatBody colorbase img x y =
      img.setPixel x y ((fun _ _ _ _ rgb =>
        qRgba colorbase.red colorbase.green colorbase.blue (qAlpha rgb))
        img.width img.height x y (img.pixel x y)) := rfl

theorem gradientBody_eq (img : QImage) (x y : ℕ) :
    gradientBody img x y =
      img.setPixel x y ((fun w h x y rgb =>
        qRgba (gradientColor w h x y).red (gradientColor w h x y).green
          (gradientColor w h x y).blue (qAlpha rgb))
        img.width img.height x y (img.pixel x y)) := rfl

/-- In flat mode the result has the size of the input and each pixel inside it
is the tint with the alpha of the input pixel. -/
theorem MakeSingleColorImage_flat (env : GuiEnv) (img : QImage) (colorbase : QColor)
    (hflag : env.customThemeIsSet = false) :
    MakeSingleColorImage env img colorbase =
      ⟨img.width, img.height, fun i j =>
        if i < img.width ∧ j < img.height then
          qRgba colorbase.red colorbase.green colorbase.blue (qAlpha (img.data i j))
        else img.data i j⟩ := by
  simp only [MakeSingleColorImage, hflag, QImage.convertToFormat]
  exact loopX_eq (flatBody colorbase)
    (fun _ _ _ _ rgb => qRgba colorbase.red colorbase.green colorbase.blue (qAlpha rgb))
    (flatBody_eq colorbase) img.width img (Nat.le_refl _)

/-- In custom-theme mode the result has the size of the input and each pixel
inside it is the gradient colour with the alpha of the input pixel. -/
theorem MakeSingleColorImage_gradient (env : GuiEnv) (img : QImage) (colorbase : QColor)
    (hflag : env.customThemeIsSet = true) :
    MakeSingleColorImage env img colorbase =
      ⟨img.width, img.height, fun i j =>
        if i < img.width ∧ j < img.height then
          qRgba (gradientColor img.width img.height i j).red
            (gradientColor img.width img.height i j).green
            (gradientColor img.width img.height i j).blue (qAlpha (img.data i j))
        else img.data i j⟩ := by
  simp only [MakeSingleColorImage, hflag, QImage.convertToFormat]
  exact loopX_eq gradientBody
    (fun w h x y rgb =>
      qRgba (gradientColor w h x y).red (gradientColor w h x y).green
        (gradientColor w h x y).blue (qAlpha rgb))
    gradientBody_eq img.width img (Nat.le_refl _)

theorem MakeSingleColorImage_width (env : GuiEnv) (img : QImage) (colorbase : QColor) :
    (MakeSingleColorImage env img colorbase).width = img.width := by
  cases h : env.customThemeIsSet
  · rw [MakeSingleColorImage_flat env img colorbase h]
  · rw [MakeSingleColorImage_gradient env img colorbase h]

theorem MakeSingleColorImage_height (env : GuiEnv) (img : QImage) (colorbase : QColor) :
    (MakeSingleColorImage env img colorbase).height = img.height := by
  cases h : env.customThemeIsSet
  · rw [MakeSingleColorImage_flat env img colorbase h]
  · rw [MakeSingleColorImage_gradient env img colorbase h]

theorem MakeSingleColorImage_pixel_flat (env : GuiEnv) (img : QImage) (colorbase : QColor)
    (hflag : env.customThemeIsSet = false) (i j : ℕ) (hi : i < img.width)
    (hj : j < img.height) :
    (MakeSingleColorImage env img colorbase).pixel i j =
      qRgba colorbase.red colorbase.green colorbase.blue (qAlpha (img.pixel i j)) := by
  rw [MakeSingleColorImage_flat env img colorbase hflag]
  simp [QImage.pixel, hi, hj]

theorem MakeSingleColorImage_pixel_gradient (env : GuiEnv) (img : QImage)
    (colorbase : QColor) (hflag : env.customThemeIsSet = true) (i j : ℕ)
    (hi : i < img.width) (hj : j < img.height) :
    (MakeSingleColorImage env img colorbase).pixel i j =
      qRgba (gradientColor img.width img.height i j).red
        (gradientColor img.width img.height i j).green
        (gradientColor img.width img.height i j).blue (qAlpha (img.pixel i j)) := by
  rw [MakeSingleColorImage_gradient env img colorbase hflag]
  simp [QImage.pixel, hi, hj]

/-! ## Channels of a packed value -/

theorem qAlpha_qRgba (r g b a : ℕ) : qAlpha (qRgba r g b a) = a % 256 := by
  simp only [qAlpha, qRgba]
  norm_num
  omega

theorem qRed_qRgba (r g b a : ℕ) : qRed (qRgba r g b a) = r % 256 := by
  simp only [qRed, qRgba]
  norm_num
  omega

theorem qGreen_qRgba (r g b a : ℕ) : qGreen (qRgba r g b a) = g % 256 := by
  simp only [qGreen, qRgba]
  norm_num
  omega

theorem qBlue_qRgba (r g b a : ℕ) : qBlue (qRgba r g b a) = b % 256 := by
  simp only [qBlue, qRgba]
  norm_num
  omega

theorem qAlpha_lt (rgb : ℕ) : qAlpha rgb < 256 := by
  simp only [qAlpha]
  norm_num
  omega

/-! ## Icons -/

theorem foldl_addPixmap (g : QImage → QImage) (l : List QImage) (acc : QIcon) :
    l.foldl (fun new_ico img => new_ico.addPixmap (g img)) acc
      = ⟨acc.pixmaps ++ l.map g⟩ := by
  induction l generalizing acc with
  | nil => simp
  | cons a l ih =>
    rw [List.foldl_cons, ih]
    simp [QIcon.addPixmap]

/-- The icon overload recolours the pixmap of every available size, in order. -/
theorem ColorizeIcon_eq_map (env : GuiEnv) (ico : QIcon) (colorbase : QColor) :
    ColorizeIcon env ico colorbase
      = ⟨ico.pixmaps.map (fun img => MakeSingleColorImage env img colorbase)⟩ := by
  simp [ColorizeIcon, foldl_addPixmap, QIcon.empty]

/-! ## The factory and the trait table -/

/-- C1: for each of the three known platform identifiers `instantiate` finds
the row (the result is not null) and calls the constructor with that row's
identifier and trait triple: "macosx" with (false, true, true), "windows" with
(true, false, false), "other" with (true, true, false); the style's name is
the identifier, and when the custom-theme flag is not set the three flags of
the returned style are that triple. -/
theorem instantiate_known_platforms (env : GuiEnv) :
    (PlatformStyle.instantiate env "macosx"
        = some (PlatformStyle.new env "macosx" false true true)
      ∧ PlatformStyle.instantiate env "windows"
        = some (PlatformStyle.new env "windows" true false false)
      ∧ PlatformStyle.instantiate env "other"
        = some (PlatformStyle.new env "other" true true false))
    ∧ ((PlatformStyle.new env "macosx" false true true).name = "macosx"
      ∧ (PlatformStyle.new env "windows" true false false).name = "windows"
      ∧ (PlatformStyle.new env "other" true true false).name = "other")
    ∧ (env.customThemeIsSet = false →
      ((PlatformStyle.new env "macosx" false true true).imagesOnButtons = false
        ∧ (PlatformStyle.new env "macosx" false true true).colorizeIcons = true
        ∧ (PlatformStyle.new env "macosx" false true true).useExtraSpacing = true)
      ∧ ((PlatformStyle.new env "windows" true false false).imagesOnButtons = true
        ∧ (PlatformStyle.new env "windows" true false false).colorizeIcons = false
        ∧ (PlatformStyle.new env "windows" true false false).useExtraSpacing = false)
      ∧ ((PlatformStyle.new env "other" true true false).imagesOnButtons = true
        ∧ (PlatformStyle.new env "other" true true false).colorizeIcons = true
        ∧ (PlatformStyle.new env "other" true true false).useExtraSpacing = false)) := by
  refine ⟨⟨?_, ?_, ?_⟩, ⟨?_, ?_, ?_⟩, ?_⟩
  · simp [PlatformStyle.instantiate, PlatformStyle.instantiateFrom, platform_styles]
  · simp [PlatformStyle.instantiate, PlatformStyle.instantiateFrom, platform_styles]
  · simp [PlatformStyle.instantiate, PlatformStyle.instantiateFrom, platform_styles]
  · cases h : env.customThemeIsSet <;> simp [PlatformStyle.new, h]
  · cases h : env.customThemeIsSet <;> simp [PlatformStyle.new, h]
  · cases h : env.customThemeIsSet <;> simp [PlatformStyle.new, h]
  · intro hflag
    simp [PlatformStyle.new, hflag]

/-- C1 at the identifier "windows" with the custom-theme flag off. -/
theorem instantiate_known_platforms_witness :
    (sampleEnv false).customThemeIsSet = false
    ∧ PlatformStyle.instantiate (sampleEnv false) "windows"
        = some (PlatformStyle.new (sampleEnv false) "windows" true false false)
    ∧ (PlatformStyle.new (sampleEnv false) "windows" true false false).colorizeIcons = false :=
  ⟨rfl, (instantiate_known_platforms (sampleEnv false)).1.2.1,
    ((instantiate_known_platforms (sampleEnv false)).2.2 rfl).2.1.2.1⟩

/-- C2: `instantiate` returns the null pointer exactly when the identifier is
none of "macosx", "windows", "other" (exact, case-sensitive comparison),
whatever the custom-theme flag; "linux", "", "Windows" and "macosx " are not
found; and every call either returns null or a style built from a table row. -/
theorem instantiate_none_iff (env : GuiEnv) (platformId : String) :
    (PlatformStyle.instantiate env platformId = none
      ↔ (platformId ≠ "macosx" ∧ platformId ≠ "windows" ∧ platformId ≠ "other"))
    ∧ PlatformStyle.instantiate env "linux" = none
    ∧ PlatformStyle.instantiate env "" = none
    ∧ PlatformStyle.instantiate env "Windows" = none
    ∧ PlatformStyle.instantiate env "macosx " = none
    ∧ (PlatformStyle.instantiate env platformId = none
      ∨ ∃ row ∈ platform_styles, platformId = row.platformId
        ∧ PlatformStyle.instantiate env platformId
          = some (PlatformStyle.new env row.platformId row.imagesOnButtons
              row.colorizeIcons row.useExtraSpacing)) := by
  refine ⟨?_, ?_, ?_, ?_, ?_, ?_⟩
  · by_cases h1 : platformId = "macosx"
    · simp [PlatformStyle.instantiate, PlatformStyle.instantiateFrom, platform_styles, h1]
    · by_cases h2 : platformId = "windows"
      · simp [PlatformStyle.instantiate, PlatformStyle.instantiateFrom, platform_styles, h2]
      · by_cases h3 : platformId = "other"
        · simp [PlatformStyle.instantiate, PlatformStyle.instantiateFrom, platform_styles, h3]
        · simp [PlatformStyle.instantiate, PlatformStyle.instantiateFrom, platform_styles,
            h1, h2, h3]
  · simp [PlatformStyle.instantiate, PlatformStyle.instantiateFrom, platform_styles]
  · simp [PlatformStyle.instantiate, PlatformStyle.instantiateFrom, platform_styles]
  · simp [PlatformStyle.instantiate, PlatformStyle.instantiateFrom, platform_styles]
  · simp [PlatformStyle.instantiate, PlatformStyle.instantiateFrom, platform_styles]
  · by_cases h1 : platformId = "macosx"
    · right
      exact ⟨⟨"macosx", false, true, true⟩, by simp [platform_styles], h1, by
        simp [PlatformStyle.instantiate, PlatformStyle.instantiateFrom, platform_styles, h1]⟩
    · by_cases h2 : platformId = "windows"
      · right
        exact ⟨⟨"windows", true, false, false⟩, by simp [platform_styles], h2, by
          simp [PlatformStyle.instantiate, PlatformStyle.instantiateFrom, platform_styles, h2]⟩
      · by_cases h3 : platformId = "other"
        · right
          exact ⟨⟨"other", true, true, false⟩, by simp [platform_styles], h3, by
            simp [PlatformStyle.instantiate, PlatformStyle.instantiateFrom, platform_styles,
              h3]⟩
        · left
          simp [PlatformStyle.instantiate, PlatformStyle.instantiateFrom, platform_styles,
            h1, h2, h3]

/-! ## Recolouring -/

/-- C3: when the custom-theme flag is not set, `MakeSingleColorImage` keeps the
width and the height, and every pixel of the result is the tint's red, green
and blue with the alpha of the input pixel at the same coordinates; where the
input pixel is opaque the result is the tint with alpha 255. -/
theorem flat_tint_every_pixel (env : GuiEnv) (img : QImage) (colorbase : QColor)
    (i j : ℕ) (hflag : env.customThemeIsSet = false)
    (hr : colorbase.red ≤ 255) (hg : colorbase.green ≤ 255) (hb : colorbase.blue ≤ 255)
    (hi : i < img.width) (hj : j < img.height) :
    (MakeSingleColorImage env img colorbase).width = img.width
    ∧ (MakeSingleColorImage env img colorbase).height = img.height
    ∧ (MakeSingleColorImage env img colorbase).pixel i j
        = qRgba colorbase.red colorbase.green colorbase.blue (qAlpha (img.pixel i j))
    ∧ qRed ((MakeSingleColorImage env img colorbase).pixel i j) = colorbase.red
    ∧ qGreen ((MakeSingleColorImage env img colorbase).pixel i j) = colorbase.green
    ∧ qBlue ((MakeSingleColorImage env img colorbase).pixel i j) = colorbase.blue
    ∧ qAlpha ((MakeSingleColorImage env img colorbase).pixel i j) = qAlpha (img.pixel i j)
    ∧ (qAlpha (img.pixel i j) = 255 →
        (MakeSingleColorImage env img colorbase).pixel i j
          = qRgba colorbase.red colorbase.green colorbase.blue 255) := by
  have hp := MakeSingleColorImage_pixel_flat env img colorbase hflag i j hi hj
  have ha := qAlpha_lt (img.pixel i j)
  refine ⟨MakeSingleColorImage_width env img colorbase,
    MakeSingleColorImage_height env img colorbase, hp, ?_, ?_, ?_, ?_, ?_⟩
  · rw [hp, qRed_qRgba]
    omega
  · rw [hp, qGreen_qRgba]
    omega
  · rw [hp, qBlue_qRgba]
    omega
  · rw [hp, qAlpha_qRgba]
    omega
  · intro h
    rw [hp, h]

/-- C3 at the pixel (1, 2) of a 2 × 3 image with tint (1, 2, 3). -/
theorem flat_tint_every_pixel_witness :
    (sampleEnv false).customThemeIsSet = false
    ∧ (QColor.rgb 1 2 3).red ≤ 255 ∧ (QColor.rgb 1 2 3).green ≤ 255
    ∧ (QColor.rgb 1 2 3).blue ≤ 255
    ∧ 1 < (sampleImage 2 3).width ∧ 2 < (sampleImage 2 3).height
    ∧ (MakeSingleColorImage (sampleEnv false) (sampleImage 2 3) (QColor.rgb 1 2 3)).pixel 1 2
        = qRgba (QColor.rgb 1 2 3).red (QColor.rgb 1 2 3).green (QColor.rgb 1 2 3).blue
            (qAlpha ((sampleImage 2 3).pixel 1 2)) :=
  ⟨rfl, by decide, by decide, by decide, by decide, by decide,
    (flat_tint_every_pixel (sampleEnv false) (sampleImage 2 3) (QColor.rgb 1 2 3) 1 2 rfl
      (by decide) (by decide) (by decide) (by decide) (by decide)).2.2.1⟩

/-- C4: in both modes of `MakeSingleColorImage` (gradient and flat tint) the
width and the height are unchanged and the alpha channel of every output
pixel is the alpha channel of the input pixel at the same coordinates. -/
theorem alpha_and_size_preserved (env : GuiEnv) (img : QImage) (colorbase : QColor)
    (i j : ℕ) (hi : i < img.width) (hj : j < img.height) :
    (MakeSingleColorImage env img colorbase).width = img.width
    ∧ (MakeSingleColorImage env img colorbase).height = img.height
    ∧ qAlpha ((MakeSingleColorImage env img colorbase).pixel i j)
        = qAlpha (img.pixel i j) := by
  have ha := qAlpha_lt (img.pixel i j)
  refine ⟨MakeSingleColorImage_width env img colorbase,
    MakeSingleColorImage_height env img colorbase, ?_⟩
  cases hflag : env.customThemeIsSet
  · rw [MakeSingleColorImage_pixel_flat env img colorbase hflag i j hi hj, qAlpha_qRgba]
    omega
  · rw [MakeSingleColorImage_pixel_gradient env img colorbase hflag i j hi hj, qAlpha_qRgba]
    omega

/-- C4 at the pixel (3, 0) of a 4 × 2 image in custom-theme mode. -/
theorem alpha_and_size_preserved_witness :
    3 < (sampleImage 4 2).width ∧ 0 < (sampleImage 4 2).height
    ∧ qAlpha ((MakeSingleColorImage (sampleEnv true) (sampleImage 4 2) colorMid).pixel 3 0)
        = qAlpha ((sampleImage 4 2).pixel 3 0) :=
  ⟨by decide, by decide,
    (alpha_and_size_preserved (sampleEnv true) (sampleImage 4 2) colorMid 3 0
      (by decide) (by decide)).2.2⟩

/-! ## Accessors -/

/-- C5: `SingleColorImage` and both overloads of `SingleColorIcon` return the
asset unmodified (the image or icon loaded from the file name, or the icon
argument itself) when `colorizeIcons` is false, and the asset recoloured with
the instance's tint colour when it is true. -/
theorem single_color_accessors (env : GuiEnv) (s : PlatformStyle) (filename : String)
    (icon : QIcon) :
    PlatformStyle.SingleColorImage env s filename
        = (if s.colorizeIcons then
            MakeSingleColorImage env (env.loadImage filename) s.singleColor
          else env.loadImage filename)
    ∧ PlatformStyle.SingleColorIconFile env s filename
        = (if s.colorizeIcons then
            QIcon.ofImage (MakeSingleColorImage env (env.loadImage filename) s.singleColor)
          else env.loadIcon filename)
    ∧ PlatformStyle.SingleColorIcon env s icon
        = (if s.colorizeIcons then
            ⟨icon.pixmaps.map (fun img => MakeSingleColorImage env img s.singleColor)⟩
          else icon) := by
  cases h : s.colorizeIcons <;>
    simp [PlatformStyle.SingleColorImage, PlatformStyle.SingleColorIconFile,
      PlatformStyle.SingleColorIcon, PlatformStyle.SingleColor, ColorizeImage,
      ColorizeIconFile, ColorizeIcon_eq_map, h]

/-- C6: both overloads of `TextColorIcon` return the icon recoloured by
`MakeSingleColorImage` with the instance's text colour, whatever the value of
`colorizeIcons`: the results for `colorizeIcons = false` and for
`colorizeIcons = true` are the same. -/
theorem text_color_icon_always_recolors (env : GuiEnv) (s : PlatformStyle)
    (filename : String) (icon : QIcon) :
    PlatformStyle.TextColorIconFile env s filename
        = QIcon.ofImage (MakeSingleColorImage env (env.loadImage filename) s.textColor)
    ∧ PlatformStyle.TextColorIcon env s icon
        = ⟨icon.pixmaps.map (fun img => MakeSingleColorImage env img s.textColor)⟩
    ∧ PlatformStyle.TextColorIconFile env { s with colorizeIcons := false } filename
        = PlatformStyle.TextColorIconFile env { s with colorizeIcons := true } filename
    ∧ PlatformStyle.TextColorIcon env { s with colorizeIcons := false } icon
        = PlatformStyle.TextColorIcon env { s with colorizeIcons := true } icon := by
  refine ⟨?_, ?_, ?_, ?_⟩
  · simp [PlatformStyle.TextColorIconFile, PlatformStyle.TextColor, ColorizeImage,
      ColorizeIconFile]
  · simp [PlatformStyle.TextColorIcon, PlatformStyle.TextColor, ColorizeIcon_eq_map]
  · simp [PlatformStyle.TextColorIconFile, PlatformStyle.TextColor]
  · simp [PlatformStyle.TextColorIcon, PlatformStyle.TextColor]

/-! ## The constructor -/

/-- C8: when the custom-theme flag is set the constructor yields, for every
name and every triple of booleans, a style with `imagesOnButtons = true`,
`colorizeIcons = true` and tint colour = text colour = the opaque colour
(12, 175, 165); the name and `useExtraSpacing` are the constructor arguments. -/
theorem constructor_custom_theme (env : GuiEnv) (name : String) (a b c : Bool)
    (hflag : env.customThemeIsSet = true) :
    (PlatformStyle.new env name a b c).imagesOnButtons = true
    ∧ (PlatformStyle.new env name a b c).colorizeIcons = true
    ∧ (PlatformStyle.new env name a b c).singleColor = ⟨true, 12, 175, 165, 255⟩
    ∧ (PlatformStyle.new env name a b c).textColor = ⟨true, 12, 175, 165, 255⟩
    ∧ (PlatformStyle.new env name a b c).name = name
    ∧ (PlatformStyle.new env name a b c).useExtraSpacing = c := by
  simp [PlatformStyle.new, hflag, QColor.rgb, QColor.rgba]

/-- C8 at the arguments of the "windows" row. -/
theorem constructor_custom_theme_witness :
    (sampleEnv true).customThemeIsSet = true
    ∧ (PlatformStyle.new (sampleEnv true) "windows" true false false).colorizeIcons = true
    ∧ (PlatformStyle.new (sampleEnv true) "windows" true false false).singleColor
        = ⟨true, 12, 175, 165, 255⟩ :=
  ⟨rfl, (constructor_custom_theme (sampleEnv true) "windows" true false false rfl).2.1,
    (constructor_custom_theme (sampleEnv true) "windows" true false false rfl).2.2.1⟩

/-- C9: when the custom-theme flag is not set the constructor leaves the name
and the three flags equal to its arguments, sets the text colour to the
palette's window-text colour whatever `colorizeIcons` is, and sets the tint
colour, when `colorizeIcons` is true, to the highlight background if
`|L(bg) - L(text)| < |L(fg) - L(text)|` and to the highlighted text otherwise
(a tie included); when `colorizeIcons` is false the tint stays opaque (0, 0, 0). -/
theorem constructor_default_theme (env : GuiEnv) (name : String) (a b c : Bool)
    (hflag : env.customThemeIsSet = false) :
    (PlatformStyle.new env name a b c).name = name
    ∧ (PlatformStyle.new env name a b c).imagesOnButtons = a
    ∧ (PlatformStyle.new env name a b c).colorizeIcons = b
    ∧ (PlatformStyle.new env name a b c).useExtraSpacing = c
    ∧ (PlatformStyle.new env name a b c).textColor = env.palette.WindowText
    ∧ (PlatformStyle.new env name a b c).singleColor
        = (if b then
            (if |env.lightness env.palette.Highlight - env.lightness env.palette.WindowText|
                < |env.lightness env.palette.HighlightedText
                    - env.lightness env.palette.WindowText| then
              env.palette.Highlight
            else env.palette.HighlightedText)
          else ⟨true, 0, 0, 0, 255⟩)
    ∧ (b = true →
        |env.lightness env.palette.Highlight - env.lightness env.palette.WindowText|
          = |env.lightness env.palette.HighlightedText
              - env.lightness env.palette.WindowText| →
        (PlatformStyle.new env name a b c).singleColor = env.palette.HighlightedText) := by
  cases b <;> simp [PlatformStyle.new, hflag, QColor.rgb, QColor.rgba]
  intro h hlt
  rw [h] at hlt
  exact absurd hlt (lt_irrefl _)

/-- C9 at the arguments of the "other" row. -/
theorem constructor_default_theme_witness :
    (sampleEnv false).customThemeIsSet = false
    ∧ (PlatformStyle.new (sampleEnv false) "other" true true false).textColor
        = (sampleEnv false).palette.WindowText
    ∧ (PlatformStyle.new (sampleEnv false) "other" true true false).colorizeIcons = true :=
  ⟨rfl, (constructor_default_theme (sampleEnv false) "other" true true false rfl).2.2.2.2.1,
    (constructor_default_theme (sampleEnv false) "other" true true false rfl).2.2.1⟩

/-! ## The gradient -/

theorem roundNearestEven_zero (p : ℕ) : roundNearestEven p 0 = 0 := by
  simp [roundNearestEven]

/-- On the diagonal of a square image the blend factor is exactly zero. -/
theorem blendLeft_diag (w x : ℕ) : blendLeft w w x x = 0 := by
  simp [blendLeft, toFloat, toDouble, roundNearestEven_zero]

/-- At the origin of any image the blend factor is exactly zero. -/
theorem blendLeft_origin (w h : ℕ) : blendLeft w h 0 0 = 0 := by
  simp [blendLeft, toFloat, toDouble, roundNearestEven_zero]

/-- With a zero blend factor each channel is the channel of `colorMid`. -/
theorem blendChannel_zero :
    blendChannel colorMid.red colorLeft.red 0 = 102
    ∧ blendChannel colorMid.green colorLeft.green 0 = 204
    ∧ blendChannel colorMid.blue colorLeft.blue 0 = 204 := by decide!

/-- With a zero blend factor in the branch `y ≥ x` the constructor receives
the channels of `colorMid`. -/
theorem gradientArgs_of_blendLeft_zero (w h x y : ℕ) (hxy : ¬ y < x)
    (hr : blendLeft w h x y = 0) : gradientArgs w h x y = (102, 204, 204) := by
  simp only [gradientArgs, hxy, if_false, hr, blendChannel_zero.1,
    blendChannel_zero.2.1, blendChannel_zero.2.2]

/-- C7, as amended: in custom-theme mode, on an image whose width equals its
height, and at the pixel (0, 0) of an image of any size, a pixel with `y = x`
has blend factor 0 and its output red, green and blue are exactly those of the
"mid" colour (102, 204, 204), with the alpha of the input pixel. -/
theorem diagonal_pixel_is_mid_on_square (env : GuiEnv) (img : QImage) (colorbase : QColor)
    (x : ℕ) (hflag : env.customThemeIsSet = true) (hx : x < img.width)
    (hy : x < img.height) (hsq : img.width = img.height ∨ x = 0) :
    blendLeft img.width img.height x x = 0
    ∧ gradientArgs img.width img.height x x = (102, 204, 204)
    ∧ (MakeSingleColorImage env img colorbase).pixel x x
        = qRgba 102 204 204 (qAlpha (img.pixel x x))
    ∧ qRed ((MakeSingleColorImage env img colorbase).pixel x x) = 102
    ∧ qGreen ((MakeSingleColorImage env img colorbase).pixel x x) = 204
    ∧ qBlue ((MakeSingleColorImage env img colorbase).pixel x x) = 204 := by
  have hr : blendLeft img.width img.height x x = 0 := by
    rcases hsq with h | h
    · rw [h]
      exact blendLeft_diag img.height x
    · rw [h]
      exact blendLeft_origin img.width img.height
  have hargs := gradientArgs_of_blendLeft_zero img.width img.height x x (lt_irrefl x) hr
  have hcol : gradientColor img.width img.height x x = ⟨true, 102, 204, 204, 255⟩ := by
    simp only [gradientColor, hargs]
    decide
  have hp : (MakeSingleColorImage env img colorbase).pixel x x
      = qRgba 102 204 204 (qAlpha (img.pixel x x)) := by
    rw [MakeSingleColorImage_pixel_gradient env img colorbase hflag x x hx hy, hcol]
  refine ⟨hr, hargs, hp, ?_, ?_, ?_⟩
  · rw [hp, qRed_qRgba]
  · rw [hp, qGreen_qRgba]
  · rw [hp, qBlue_qRgba]

/-- C7, as amended, at the pixel (1, 1) of a 3 × 3 image. -/
theorem diagonal_pixel_is_mid_on_square_witness :
    (sampleEnv true).customThemeIsSet = true
    ∧ 1 < (sampleImage 3 3).width ∧ 1 < (sampleImage 3 3).height
    ∧ ((sampleImage 3 3).width = (sampleImage 3 3).height ∨ 1 = 0)
    ∧ qRed ((MakeSingleColorImage (sampleEnv true) (sampleImage 3 3) colorMid).pixel 1 1)
        = 102 :=
  ⟨rfl, by decide, by decide, Or.inl rfl,
    (diagonal_pixel_is_mid_on_square (sampleEnv true) (sampleImage 3 3) colorMid 1 rfl
      (by decide) (by decide) (Or.inl rfl)).2.2.2.1⟩

/-- C7, as stated, fails on a non-square image: in custom-theme mode the pixel
(1, 1) of a 2 × 4 image has blend factor -5/16, the constructor receives
(100, 205, 193), and the output pixel is that colour, not (102, 204, 204). -/
theorem diagonal_pixel_not_mid_on_2x4 :
    blendLeft 2 4 1 1 = -5 / 16
    ∧ gradientArgs 2 4 1 1 = (100, 205, 193)
    ∧ (MakeSingleColorImage (sampleEnv true) (sampleImage 2 4) colorMid).pixel 1 1
        = qRgba 100 205 193 (qAlpha ((sampleImage 2 4).pixel 1 1))
    ∧ qRed ((MakeSingleColorImage (sampleEnv true) (sampleImage 2 4) colorMid).pixel 1 1)
        = 100
    ∧ qGreen ((MakeSingleColorImage (sampleEnv true) (sampleImage 2 4) colorMid).pixel 1 1)
        = 205
    ∧ qBlue ((MakeSingleColorImage (sampleEnv true) (sampleImage 2 4) colorMid).pixel 1 1)
        = 193 := by
  decide!

/-- C10: in custom-theme mode the top right pixel (15, 0) of a 16 × 16 image
has blend factor 75/64, the red argument passed to the colour constructor is
-3, outside 0..255; the colour is left invalid and the pixel is written black
with the alpha of the input pixel. -/
theorem gradient_red_negative_on_16x16 :
    blendRight 16 16 15 0 = 75 / 64
    ∧ gradientArgs 16 16 15 0 = (-3, 170, 158)
    ∧ gradientColor 16 16 15 0 = QColor.invalid
    ∧ (MakeSingleColorImage (sampleEnv true) (sampleImage 16 16) colorMid).pixel 15 0
        = qRgba 0 0 0 (qAlpha ((sampleImage 16 16).pixel 15 0)) := by
  decide!
